import Mathlib

/-!
Verification of the `ol/events/condition` module (src/src/ol/events/condition.js):
a library of boolean predicates over map-browser events.

The embedding is shallow: the event shape is a Lean structure, each JavaScript
predicate becomes a Lean function over it, and the process-wide platform flags
(`MAC`, `WEBKIT` from `ol/has.js`) and the focus oracle (`document.activeElement`)
are explicit parameters.  Predicates that can throw in JavaScript
(`mouseOnly` via `assert`, `primaryAction` via a property access on a missing
record) return `Except JsError Bool`; the rest return `Bool`.
-/

/-- The modifier-key, button and target fields of the underlying DOM event
(`mapBrowserEvent.originalEvent` in the source).  `targetTagName` models
`originalEvent.target.tagName`. -/
structure OriginalEvent where
  altKey : Bool
  shiftKey : Bool
  ctrlKey : Bool
  metaKey : Bool
  button : Int
  targetTagName : String
  deriving DecidableEq

/-- The pointer-event record (`mapBrowserEvent.pointerEvent` in the source),
present only for pointer-originated events. -/
structure PointerEvent where
  pointerType : String
  isPrimary : Bool
  button : Int
  deriving DecidableEq

/-- A map browser event as consumed by the condition library.  `pointerEvent`
is optional: in the source it is a possibly-undefined property.
`mapTargetElement` models the identity of `event.target.getTargetElement()`,
used by `focus`. -/
structure MapBrowserEvent where
  type : String
  originalEvent : OriginalEvent
  pointerEvent : Option PointerEvent
  mapTargetElement : Nat
  deriving DecidableEq

/-- Errors observable from the library: the assertion failure raised by
`assert` (the source passes error code 56), and the JavaScript `TypeError`
raised by reading a property of an undefined value. -/
inductive JsError where
  | preconditionError (code : Nat)
  | typeError
  deriving DecidableEq

namespace MapBrowserEventType

/-- Modelled from the spec: `ol/MapBrowserEventType.js` is imported by the
source but is not under src/.  The spec fixes a closed enumeration of semantic
event kinds with pairwise distinct values; the values are the DOM-style event
type strings.  The Click kind. -/
def CLICK : String := "click"

/-- Modelled from the spec: the SingleClick kind of the event-type
enumeration (see `MapBrowserEventType.CLICK`). -/
def SINGLECLICK : String := "singleclick"

/-- Modelled from the spec: the DoubleClick kind of the event-type
enumeration (see `MapBrowserEventType.CLICK`). -/
def DBLCLICK : String := "dblclick"

/-- Modelled from the spec: the PointerMove kind of the event-type
enumeration; the source itself compares `type` against this literal string in
`pointerMove`. -/
def POINTERMOVE : String := "pointermove"

end MapBrowserEventType

/-- Modelled from the spec: `assert` from `ol/asserts.js` is imported by the
source but is not under src/.  Per the spec it fails with PreconditionError
when its argument is falsy, and is a no-op otherwise; the source passes the
truthiness of a value and a numeric error code. -/
def assert (condition : Bool) (code : Nat) : Except JsError Unit :=
  if condition then Except.ok () else Except.error (JsError.preconditionError code)

/-- Modelled from the spec: `TRUE` from `ol/functions.js` is imported by the
source but is not under src/; per the spec `always` is constant true. -/
def TRUE : MapBrowserEvent → Bool := fun _ => true

/-- Modelled from the spec: `FALSE` from `ol/functions.js` is imported by the
source but is not under src/; per the spec `never` is constant false. -/
def FALSE : MapBrowserEvent → Bool := fun _ => false

/-- `altKeyOnly`: alt pressed, neither meta nor ctrl, shift not pressed. -/
def altKeyOnly (mapBrowserEvent : MapBrowserEvent) : Bool :=
  mapBrowserEvent.originalEvent.altKey &&
    !(mapBrowserEvent.originalEvent.metaKey || mapBrowserEvent.originalEvent.ctrlKey) &&
    !mapBrowserEvent.originalEvent.shiftKey

/-- `altShiftKeysOnly`: alt and shift pressed, neither meta nor ctrl. -/
def altShiftKeysOnly (mapBrowserEvent : MapBrowserEvent) : Bool :=
  mapBrowserEvent.originalEvent.altKey &&
    !(mapBrowserEvent.originalEvent.metaKey || mapBrowserEvent.originalEvent.ctrlKey) &&
    mapBrowserEvent.originalEvent.shiftKey

/-- `focus`: the map's target element is identical to the currently focused
element (`document.activeElement`, passed explicitly). -/
def focus (activeElement : Nat) (event : MapBrowserEvent) : Bool :=
  event.mapTargetElement == activeElement

/-- `always = TRUE` (the source binds the imported constant directly). -/
def always : MapBrowserEvent → Bool := TRUE

/-- `click`: the event type equals `MapBrowserEventType.CLICK`. -/
def click (mapBrowserEvent : MapBrowserEvent) : Bool :=
  mapBrowserEvent.type == MapBrowserEventType.CLICK

/-- `mouseActionButton`: button 0 and not (WebKit and Mac and ctrl).
`WEBKIT` and `MAC` are the process-wide platform flags from `ol/has.js`,
passed explicitly. -/
def mouseActionButton (WEBKIT MAC : Bool) (mapBrowserEvent : MapBrowserEvent) : Bool :=
  mapBrowserEvent.originalEvent.button == 0 &&
    !(WEBKIT && MAC && mapBrowserEvent.originalEvent.ctrlKey)

/-- `never = FALSE` (the source binds the imported constant directly). -/
def never : MapBrowserEvent → Bool := FALSE

/-- `pointerMove`: the event type equals the literal string for pointer-move. -/
def pointerMove (mapBrowserEvent : MapBrowserEvent) : Bool :=
  mapBrowserEvent.type == "pointermove"

/-- `singleClick`: the event type equals `MapBrowserEventType.SINGLECLICK`. -/
def singleClick (mapBrowserEvent : MapBrowserEvent) : Bool :=
  mapBrowserEvent.type == MapBrowserEventType.SINGLECLICK

/-- `doubleClick`: the event type equals `MapBrowserEventType.DBLCLICK`. -/
def doubleClick (mapBrowserEvent : MapBrowserEvent) : Bool :=
  mapBrowserEvent.type == MapBrowserEventType.DBLCLICK

/-- `noModifierKeys`: none of alt, meta, ctrl, shift pressed. -/
def noModifierKeys (mapBrowserEvent : MapBrowserEvent) : Bool :=
  !mapBrowserEvent.originalEvent.altKey &&
    !(mapBrowserEvent.originalEvent.metaKey || mapBrowserEvent.originalEvent.ctrlKey) &&
    !mapBrowserEvent.originalEvent.shiftKey

/-- `platformModifierKeyOnly`: alt not pressed, the platform modifier
(meta on Mac, ctrl otherwise) pressed, shift not pressed. -/
def platformModifierKeyOnly (MAC : Bool) (mapBrowserEvent : MapBrowserEvent) : Bool :=
  !mapBrowserEvent.originalEvent.altKey &&
    (if MAC then mapBrowserEvent.originalEvent.metaKey
     else mapBrowserEvent.originalEvent.ctrlKey) &&
    !mapBrowserEvent.originalEvent.shiftKey

/-- `shiftKeyOnly`: shift pressed, alt not pressed, neither meta nor ctrl. -/
def shiftKeyOnly (mapBrowserEvent : MapBrowserEvent) : Bool :=
  !mapBrowserEvent.originalEvent.altKey &&
    !(mapBrowserEvent.originalEvent.metaKey || mapBrowserEvent.originalEvent.ctrlKey) &&
    mapBrowserEvent.originalEvent.shiftKey

/-- `targetNotEditable`: the tag name of the original event's target is none
of "INPUT", "SELECT", "TEXTAREA" (strict string comparison in the source). -/
def targetNotEditable (mapBrowserEvent : MapBrowserEvent) : Bool :=
  mapBrowserEvent.originalEvent.targetTagName != "INPUT" &&
    mapBrowserEvent.originalEvent.targetTagName != "SELECT" &&
    mapBrowserEvent.originalEvent.targetTagName != "TEXTAREA"

/-- `mouseOnly`: asserts that a pointer event is present (error code 56),
then tests whether its pointer type is "mouse". -/
def mouseOnly (mapBrowserEvent : MapBrowserEvent) : Except JsError Bool :=
  match assert mapBrowserEvent.pointerEvent.isSome 56 with
  | Except.error err => Except.error err
  | Except.ok _ =>
    match mapBrowserEvent.pointerEvent with
    | some pointerEvent => Except.ok (pointerEvent.pointerType == "mouse")
    | none => Except.error JsError.typeError

/-- `primaryAction`: reads `pointerEvent.isPrimary` and `pointerEvent.button`
with no presence check; in JavaScript, when `pointerEvent` is undefined this
property access throws a `TypeError`, modelled as `Except.error`. -/
def primaryAction (mapBrowserEvent : MapBrowserEvent) : Except JsError Bool :=
  match mapBrowserEvent.pointerEvent with
  | none => Except.error JsError.typeError
  | some pointerEvent => Except.ok (pointerEvent.isPrimary && pointerEvent.button == 0)

/-- The five cases of the alt/shift modifier partition: the four modifier
predicates plus the residual "none of the four" case. -/
def modifierCases (e : MapBrowserEvent) : List Bool :=
  [altKeyOnly e, altShiftKeysOnly e, shiftKeyOnly e, noModifierKeys e,
   !(altKeyOnly e || altShiftKeysOnly e || shiftKeyOnly e || noModifierKeys e)]

/-- The closed enumeration of all predicates exported by the module. -/
inductive Condition where
  | always
  | never
  | altKeyOnly
  | altShiftKeysOnly
  | shiftKeyOnly
  | noModifierKeys
  | platformModifierKeyOnly
  | click
  | singleClick
  | doubleClick
  | pointerMove
  | mouseActionButton
  | targetNotEditable
  | mouseOnly
  | primaryAction
  | focus
  deriving DecidableEq

/-- The ambient read-only environment of a predicate call: the platform flags
from `ol/has.js` and the currently focused element. -/
structure PlatformFlags where
  MAC : Bool
  WEBKIT : Bool
  activeElement : Nat
  deriving DecidableEq

/-- Evaluate a named condition on an event in a given environment.  The two
predicates with an observable failure mode return their `Except` result; every
other predicate is total and is wrapped in `Except.ok`. -/
def evalCondition (c : Condition) (p : PlatformFlags) (e : MapBrowserEvent) :
    Except JsError Bool :=
  match c with
  | Condition.always => Except.ok (always e)
  | Condition.never => Except.ok (never e)
  | Condition.altKeyOnly => Except.ok (altKeyOnly e)
  | Condition.altShiftKeysOnly => Except.ok (altShiftKeysOnly e)
  | Condition.shiftKeyOnly => Except.ok (shiftKeyOnly e)
  | Condition.noModifierKeys => Except.ok (noModifierKeys e)
  | Condition.platformModifierKeyOnly => Except.ok (platformModifierKeyOnly p.MAC e)
  | Condition.click => Except.ok (click e)
  | Condition.singleClick => Except.ok (singleClick e)
  | Condition.doubleClick => Except.ok (doubleClick e)
  | Condition.pointerMove => Except.ok (pointerMove e)
  | Condition.mouseActionButton => Except.ok (mouseActionButton p.WEBKIT p.MAC e)
  | Condition.targetNotEditable => Except.ok (targetNotEditable e)
  | Condition.mouseOnly => mouseOnly e
  | Condition.primaryAction => primaryAction e
  | Condition.focus => Except.ok (focus p.activeElement e)

/-- A concrete event with no pointer info, used in concrete instantiations. -/
def evNoPointer : MapBrowserEvent :=
  { type := "click"
    originalEvent :=
      { altKey := false, shiftKey := false, ctrlKey := false, metaKey := false
        button := 0, targetTagName := "DIV" }
    pointerEvent := none
    mapTargetElement := 0 }

/-- A concrete event carrying a primary mouse pointer, used in concrete
instantiations. -/
def evMousePointer : MapBrowserEvent :=
  { type := "pointermove"
    originalEvent :=
      { altKey := false, shiftKey := false, ctrlKey := false, metaKey := false
        button := 0, targetTagName := "DIV" }
    pointerEvent := some { pointerType := "mouse", isPrimary := true, button := 0 }
    mapTargetElement := 0 }

/-- Claim C7: for every event, `always` returns true and `never` returns
false, unconditionally. -/
theorem always_never_spec (e : MapBrowserEvent) :
    always e = true ∧ never e = false := by
  exact ⟨rfl, rfl⟩

/-- Claim C8: each event-type predicate is true exactly when the event's type
equals the matching enumeration value (and hence false for every other
kind). -/
theorem eventType_predicates_spec (e : MapBrowserEvent) :
    (click e = true ↔ e.type = MapBrowserEventType.CLICK) ∧
    (singleClick e = true ↔ e.type = MapBrowserEventType.SINGLECLICK) ∧
    (doubleClick e = true ↔ e.type = MapBrowserEventType.DBLCLICK) ∧
    (pointerMove e = true ↔ e.type = MapBrowserEventType.POINTERMOVE) := by
  simp [click, singleClick, doubleClick, pointerMove,
    MapBrowserEventType.CLICK, MapBrowserEventType.SINGLECLICK,
    MapBrowserEventType.DBLCLICK, MapBrowserEventType.POINTERMOVE]

/-- Claim C10: the event-type predicates `click`, `singleClick`,
`doubleClick`, `pointerMove` are pairwise mutually exclusive: at most one is
true on any event, because they compare the single type value against
pairwise-distinct constants. -/
theorem eventType_predicates_exclusive (e : MapBrowserEvent) :
    ([click e, singleClick e, doubleClick e, pointerMove e].count true) ≤ 1 := by
  obtain ⟨ty, oe, pe, t⟩ := e
  simp only [click, singleClick, doubleClick, pointerMove,
    MapBrowserEventType.CLICK, MapBrowserEventType.SINGLECLICK,
    MapBrowserEventType.DBLCLICK]
  by_cases h1 : ty = "click"
  · subst h1; decide
  · by_cases h2 : ty = "singleclick"
    · subst h2; decide
    · by_cases h3 : ty = "dblclick"
      · subst h3; decide
      · by_cases h4 : ty = "pointermove"
        · subst h4; decide
        · rw [beq_eq_false_iff_ne.mpr h1, beq_eq_false_iff_ne.mpr h2,
            beq_eq_false_iff_ne.mpr h3, beq_eq_false_iff_ne.mpr h4]
          decide

/-- Claim C3: over every combination of the four modifier flags, exactly one
of the five cases holds: `altKeyOnly`, `altShiftKeysOnly`, `shiftKeyOnly`,
`noModifierKeys`, or none of the four; in particular the four predicates are
pairwise mutually exclusive. -/
theorem modifier_predicates_partition (e : MapBrowserEvent) :
    (modifierCases e).count true = 1 := by
  obtain ⟨ty, ⟨a, s, ck, mk, b, tag⟩, pe, t⟩ := e
  simp only [modifierCases, altKeyOnly, altShiftKeysOnly, shiftKeyOnly, noModifierKeys]
  cases a <;> cases s <;> cases ck <;> cases mk <;> rfl

/-- Claim C4: `platformModifierKeyOnly` is true iff alt is unset, shift is
unset, and the platform's canonical modifier (meta on Mac, ctrl otherwise) is
set; moreover on a non-Mac platform the result is independent of metaKey, and
on a Mac platform it is independent of ctrlKey. -/
theorem platformModifierKeyOnly_spec (mac : Bool) (e : MapBrowserEvent) :
    (platformModifierKeyOnly mac e = true ↔
      e.originalEvent.altKey = false ∧ e.originalEvent.shiftKey = false ∧
      (if mac then e.originalEvent.metaKey else e.originalEvent.ctrlKey) = true) ∧
    (∀ m, platformModifierKeyOnly false
        { e with originalEvent := { e.originalEvent with metaKey := m } } =
      platformModifierKeyOnly false e) ∧
    (∀ c, platformModifierKeyOnly true
        { e with originalEvent := { e.originalEvent with ctrlKey := c } } =
      platformModifierKeyOnly true e) := by
  obtain ⟨ty, ⟨a, s, ck, mk, b, tag⟩, pe, t⟩ := e
  refine ⟨?_, ?_, ?_⟩
  · cases mac <;> cases a <;> cases s <;> cases ck <;> cases mk <;>
      simp [platformModifierKeyOnly]
  · intro m2
    rfl
  · intro c2
    rfl

/-- Claim C5: `mouseActionButton` is true iff the mouse button is 0 and not
(WebKit and Mac and ctrl); with a nonzero button it is false regardless of
the platform flags and modifiers. -/
theorem mouseActionButton_spec (webkit mac : Bool) (e : MapBrowserEvent) :
    (mouseActionButton webkit mac e = true ↔
      e.originalEvent.button = 0 ∧
      ¬(webkit = true ∧ mac = true ∧ e.originalEvent.ctrlKey = true)) ∧
    (e.originalEvent.button ≠ 0 → mouseActionButton webkit mac e = false) := by
  obtain ⟨ty, ⟨a, s, ck, mk, b, tag⟩, pe, t⟩ := e
  constructor
  · cases webkit <;> cases mac <;> cases ck <;>
      simp [mouseActionButton]
  · intro hb
    cases webkit <;> cases mac <;> cases ck <;>
      simp [mouseActionButton, hb]

/-- Claim C5, witness: concrete instantiation with a nonzero button. -/
theorem mouseActionButton_spec_witness :
    mouseActionButton true true
      { type := "click"
        originalEvent :=
          { altKey := false, shiftKey := false, ctrlKey := true, metaKey := false
            button := 1, targetTagName := "DIV" }
        pointerEvent := none
        mapTargetElement := 0 } = false :=
  (mouseActionButton_spec true true _).2 (by decide)

/-- Claim C6: `targetNotEditable` is true exactly when the target tag name is
none of the exact strings "INPUT", "SELECT", "TEXTAREA"; any other string,
including the empty string and lowercase variants, yields true. -/
theorem targetNotEditable_spec (e : MapBrowserEvent) :
    targetNotEditable e = true ↔
      e.originalEvent.targetTagName ≠ "INPUT" ∧
      e.originalEvent.targetTagName ≠ "SELECT" ∧
      e.originalEvent.targetTagName ≠ "TEXTAREA" := by
  simp [targetNotEditable, and_assoc]

/-- Claim C1, counterexample: on a concrete event without pointer info,
`primaryAction` does not return false — it fails with a type error, because
the source reads `pointerEvent.isPrimary` without a presence check.  This
refutes the claim that absent pointer info yields false rather than a
failure. -/
theorem primaryAction_absent_counterexample :
    primaryAction evNoPointer = Except.error JsError.typeError ∧
    primaryAction evNoPointer ≠ Except.ok false := by
  constructor
  · rfl
  · intro h
    simp [primaryAction, evNoPointer] at h

/-- Claim C1, amended: `primaryAction` returns true iff pointer info is
present with `isPrimary` set and `button = 0`; when pointer info is absent it
fails with a type error (the unchecked property access) rather than returning
false. -/
theorem primaryAction_spec (e : MapBrowserEvent) :
    (primaryAction e = Except.ok true ↔
      ∃ pe, e.pointerEvent = some pe ∧ pe.isPrimary = true ∧ pe.button = 0) ∧
    (e.pointerEvent = none → primaryAction e = Except.error JsError.typeError) := by
  constructor
  · cases h : e.pointerEvent with
    | none => simp [primaryAction, h]
    | some pe => simp [primaryAction, h]
  · intro h
    simp [primaryAction, h]

/-- Claim C1, witness: the amended theorem applied to concrete events with
and without pointer info. -/
theorem primaryAction_spec_witness :
    primaryAction evNoPointer = Except.error JsError.typeError ∧
    primaryAction evMousePointer = Except.ok true := by
  constructor
  · exact (primaryAction_spec evNoPointer).2 rfl
  · exact (primaryAction_spec evMousePointer).1.mpr
      ⟨{ pointerType := "mouse", isPrimary := true, button := 0 }, rfl, rfl, rfl⟩

/-- Claim C2: `mouseOnly` fails with PreconditionError (code 56) exactly when
the event has no pointer info; when pointer info is present it never fails
and returns true exactly when the pointer type is "mouse". -/
theorem mouseOnly_spec (e : MapBrowserEvent) :
    (e.pointerEvent = none →
      mouseOnly e = Except.error (JsError.preconditionError 56)) ∧
    (∀ pe, e.pointerEvent = some pe →
      mouseOnly e = Except.ok (pe.pointerType == "mouse")) := by
  constructor
  · intro h
    simp [mouseOnly, assert, h]
  · intro pe h
    simp [mouseOnly, assert, h]

/-- Claim C2, witness: the theorem applied to concrete events with and
without pointer info. -/
theorem mouseOnly_spec_witness :
    mouseOnly evNoPointer = Except.error (JsError.preconditionError 56) ∧
    mouseOnly evMousePointer = Except.ok true := by
  constructor
  · exact (mouseOnly_spec evNoPointer).1 rfl
  · have h := (mouseOnly_spec evMousePointer).2
      { pointerType := "mouse", isPrimary := true, button := 0 } rfl
    simpa using h

/-- Claim C9: every predicate of the library, evaluated through the closed
enumeration `evalCondition`, is deterministic: equal conditions, equal
platform flags and focus state, and equal events yield equal results.  (The
absence of mutation is reflected in the embedding's types: every predicate
only reads fields of the event and returns a result.) -/
theorem evalCondition_deterministic (c c2 : Condition) (p p2 : PlatformFlags)
    (e e2 : MapBrowserEvent) (hc : c = c2) (hp : p = p2) (he : e = e2) :
    evalCondition c p e = evalCondition c2 p2 e2 := by
  subst hc
  subst hp
  subst he
  rfl

/-- Claim C9, witness: determinism applied at a concrete condition, platform
and event. -/
theorem evalCondition_deterministic_witness :
    evalCondition Condition.noModifierKeys { MAC := false, WEBKIT := false, activeElement := 0 }
      evNoPointer =
    evalCondition Condition.noModifierKeys { MAC := false, WEBKIT := false, activeElement := 0 }
      evNoPointer :=
  evalCondition_deterministic _ _ _ _ _ _ rfl rfl rfl
